import Mathlib

/-!
Formal model of the web-hunter evidence aggregation and claim verification
pipeline (`fact-checker.py` and `search-aggregator.py`).

Texts are Lean `String`s; Python's substring test `needle in hay` is modelled
by `containsSub` on the underlying character lists; timestamps are integer
Unix seconds (`datetime.now()` becomes an explicit `now` parameter); Python
floats are modelled by `ℚ` (all arithmetic appearing in the code is exact on
the rationals at the granularity the claims speak about).
-/

/-- Prefix test on character lists, the building block of substring search. -/
def listIsPrefix : List Char → List Char → Bool
  | [], _ => true
  | _ :: _, [] => false
  | a :: as, b :: bs => a == b && listIsPrefix as bs

/-- Substring containment on character lists: models Python's `needle in hay`. -/
def containsSub (needle : List Char) : List Char → Bool
  | [] => listIsPrefix needle []
  | c :: rest => listIsPrefix needle (c :: rest) || containsSub needle rest

/-- Models Python's `str.lower()`, character by character. -/
def lower (s : String) : String := String.mk (s.data.map Char.toLower)

/-- Models Python's substring test `needle in hay` on `String`s. -/
def strContains (hay needle : String) : Bool := containsSub needle.data hay.data

/-- Accumulator-style splitter behind `pySplit`: whitespace-separated maximal
words, empty pieces dropped, exactly as Python's `str.split()` with no
arguments behaves. -/
def splitWsAux : List Char → List Char → List (List Char)
  | [], acc => if acc.isEmpty then [] else [acc.reverse]
  | c :: rest, acc =>
    if c.isWhitespace then
      if acc.isEmpty then splitWsAux rest [] else acc.reverse :: splitWsAux rest []
    else splitWsAux rest (c :: acc)

/-- Models `set(claim.lower().split())` from `FactChecker.analyze_sentiment`
(line 138); kept as a list, since only membership-style `any` tests are ever
performed on it, so duplicates are irrelevant. -/
def keywordsOf (claim : String) : List String :=
  (splitWsAux (lower claim).data []).map String.mk

/-- Confirming cue list of `analyze_sentiment` (fact-checker.py line 144). -/
def confirm_words : List String :=
  ["confirmed", "true", "yes", "indeed", "announced", "official"]

/-- Denying cue list of `analyze_sentiment` (fact-checker.py line 145). -/
def deny_words : List String :=
  ["false", "fake", "rumor", "not true", "denied", "debunked"]

/-- The `SUSPICIOUS_WORDS` class constant (fact-checker.py line 45). -/
def suspicious_words : List String :=
  ["viral", "shocking", "you won\x27t believe", "doctors hate", "secret"]

/-- Does any cue of the list occur in the (already lowercased) text?  Models
the `any(word in text_lower for word in ...)` pattern. -/
def anyCue (cues : List String) (textLower : String) : Bool :=
  cues.any (fun w => strContains textLower w)

/-- Does the lowercased text mention at least one claim keyword?  Models the
`any(kw in text_lower for kw in claim_keywords)` guard (line 151). -/
def countedItem (kws : List String) (textLower : String) : Bool :=
  kws.any (fun kw => strContains textLower kw)

/-- Contribution of one counted item to `confirm_signals` (lines 155-156):
2 when at least one confirming cue occurs, else 0. -/
def itemConfirmDelta (textLower : String) : Nat :=
  if anyCue confirm_words textLower then 2 else 0

/-- Contribution of one counted item to `deny_signals` from the denying cue
check (lines 159-160): 2 when at least one denying cue occurs, else 0. -/
def itemDenyCueDelta (textLower : String) : Nat :=
  if anyCue deny_words textLower then 2 else 0

/-- Contribution of one counted item to `deny_signals` from the suspicious cue
check (lines 163-164): 1 when at least one suspicious cue occurs, else 0. -/
def itemSuspiciousDelta (textLower : String) : Nat :=
  if anyCue suspicious_words textLower then 1 else 0

/-- State of the accumulation loop of `analyze_sentiment`: the
`confirm_signals`, `deny_signals` and `total_mentions` counters. -/
structure SentAcc where
  confirm : Nat
  deny : Nat
  mentions : Nat
deriving DecidableEq, Repr

/-- The `for text in texts` loop of `analyze_sentiment` (lines 147-164). -/
def sentLoop (kws : List String) : List String → SentAcc → SentAcc
  | [], acc => acc
  | t :: ts, acc =>
    let tl := lower t
    if countedItem kws tl then
      sentLoop kws ts
        ⟨acc.confirm + itemConfirmDelta tl,
         acc.deny + itemDenyCueDelta tl + itemSuspiciousDelta tl,
         acc.mentions + 1⟩
    else sentLoop kws ts acc

/-- The counter state reached by `analyze_sentiment` after its loop. -/
def sentimentAcc (texts : List String) (claim : String) : SentAcc :=
  sentLoop (keywordsOf claim) texts ⟨0, 0, 0⟩

/-- Models `FactChecker.analyze_sentiment` (fact-checker.py lines 136-179):
returns the (verdict, confidence) pair. -/
def analyze_sentiment (texts : List String) (claim : String) : String × ℚ :=
  let acc := sentimentAcc texts claim
  if acc.mentions = 0 then ("unverified", 0)
  else if acc.confirm > acc.deny * 2 then
    ("true", min ((acc.confirm : ℚ) / (acc.mentions : ℚ)) 1)
  else if acc.deny > acc.confirm * 2 then
    ("false", min ((acc.deny : ℚ) / (acc.mentions : ℚ)) 1)
  else if acc.confirm > 0 ∨ acc.deny > 0 then ("partially_true", 1 / 2)
  else ("unverified", 3 / 10)

/-- Total confirm signal over a text list, written as a per-item sum: each
counted item contributes `itemConfirmDelta` of its lowercased text. -/
def confirmSignal (kws : List String) : List String → Nat
  | [] => 0
  | t :: ts =>
    (if countedItem kws (lower t) then itemConfirmDelta (lower t) else 0) +
      confirmSignal kws ts

/-- Total deny signal over a text list, written as a per-item sum: each
counted item contributes its denying cue delta plus its suspicious cue
delta. -/
def denySignal (kws : List String) : List String → Nat
  | [] => 0
  | t :: ts =>
    (if countedItem kws (lower t) then
        itemDenyCueDelta (lower t) + itemSuspiciousDelta (lower t)
      else 0) + denySignal kws ts

/-- Number of counted items: those whose lowercased text mentions at least
one claim keyword. -/
def countedItems (kws : List String) (ts : List String) : Nat :=
  (ts.filter (fun t => countedItem kws (lower t))).length

/-- The verdict decision rule exactly as the specification states it, as a
function of the accumulated confirm signal `c`, deny signal `d` and counted
item count `n`. -/
def verdictRule (c d n : Nat) : String × ℚ :=
  if n = 0 then ("unverified", 0)
  else if c > 2 * d then ("true", min ((c : ℚ) / (n : ℚ)) 1)
  else if d > 2 * c then ("false", min ((d : ℚ) / (n : ℚ)) 1)
  else if c > 0 ∨ d > 0 then ("partially_true", 1 / 2)
  else ("unverified", 3 / 10)

/-- A search hit as consumed by the fact checker: the `title` / `text` / `url`
fields of the dicts built in `_search_reddit` / `_search_hackernews` that the
downstream analysis actually reads. -/
structure Source where
  title : String
  text : String
  url : String
deriving DecidableEq, Repr

/-- Models the f-string `f"{title} {text}"` used to build the analysed text of
one source (fact-checker.py lines 190 and 239). -/
def sourceText (s : Source) : String := s.title ++ " " ++ s.text

/-- Confirming cue list of `find_contradictions` (fact-checker.py line 192);
note it differs from `confirm_words` of `analyze_sentiment`. -/
def fc_confirm_words : List String := ["confirmed", "true", "announced", "official"]

/-- Denying cue list of `find_contradictions` (fact-checker.py line 194). -/
def fc_deny_words : List String := ["false", "fake", "denied", "debunked"]

/-- Lowercased title-plus-text of a source, as scanned by
`find_contradictions` (line 190). -/
def fcTone (s : Source) : String := lower (sourceText s)

/-- Does the source match at least one confirming cue of the contradiction
detector? -/
def fcAnyConfirm (s : Source) : Bool := anyCue fc_confirm_words (fcTone s)

/-- Does the source match at least one denying cue of the contradiction
detector? -/
def fcAnyDeny (s : Source) : Bool := anyCue fc_deny_words (fcTone s)

/-- The `confirm_sources` list built by the `if` branch of the classification
loop (fact-checker.py lines 192-193): every source matching any confirming
cue, kept in input order. -/
def confirmGroup (sources : List Source) : List Source :=
  sources.filter fcAnyConfirm

/-- The `deny_sources` list built by the `elif` branch (lines 194-195): every
source matching a denying cue that did not already land in the `if` branch. -/
def denyGroup (sources : List Source) : List Source :=
  sources.filter (fun s => !fcAnyConfirm s && fcAnyDeny s)

/-- One contradiction record, as assembled at fact-checker.py lines 199-205. -/
structure Contradiction where
  ctype : String
  confirm_count : Nat
  deny_count : Nat
  sample_confirm : Option Source
  sample_deny : Option Source
deriving DecidableEq, Repr

/-- Models `FactChecker.find_contradictions` (fact-checker.py lines 181-207);
the `claim` parameter is accepted and ignored, as in the source. -/
def find_contradictions (sources : List Source) (claim : String) : List Contradiction :=
  let cs := confirmGroup sources
  let ds := denyGroup sources
  if cs ≠ [] ∧ ds ≠ [] then
    [⟨"conflicting_reports", cs.length, ds.length, cs.head?, ds.head?⟩]
  else []

/-- Renders a rational as Python's `:.0%` format does on these values:
percentage rounded to the nearest whole number. -/
def pct (q : ℚ) : String := toString (round (q * 100)) ++ "%"

/-- Models `FactChecker.generate_explanation` (fact-checker.py lines 209-227);
only `verdict` and `confidence` are ever read by the source, so the other two
parameters are dropped here. -/
def generate_explanation (verdict : String) (confidence : ℚ) : String :=
  if verdict = "true" then
    if confidence > 4 / 5 then
      "Факт подтверждён множественными авторитетными источниками (уверенность: " ++
        (pct confidence ++ "). Найдены официальные заявления или публикации в надёжных СМИ.")
    else
      "Факт, скорее всего, верен, но требует дополнительной проверки (уверенность: " ++
        (pct confidence ++ "). Есть упоминания в источниках, но не все они авторитетны.")
  else if verdict = "false" then
    if confidence > 4 / 5 then
      "Факт опровергнут. Найдены прямые опровержения от официальных источников или фактчекинговые публикации (уверенность: " ++
        (pct confidence ++ ").")
    else
      "Факт, скорее всего, ложен (уверенность: " ++
        (pct confidence ++ "). Обнаружены признаки фейка или недостоверной информации.")
  else if verdict = "partially_true" then
    "Факт частично верен или требует уточнения (уверенность: " ++
      (pct confidence ++ "). Возможны противоречивые интерпретации или недостаёт контекста.")
  else
    "Недостаточно данных для проверки факта (уверенность: " ++
      (pct confidence ++ "). Не найдено достаточно упоминаний в доступных источниках.")

/-- The note appended on a threshold downgrade (fact-checker.py line 254),
with the f-string interpolations spelled out; grouped to the right so that
the rendered original confidence is a visible middle component. -/
def thresholdNote (confidence min_confidence : ℚ) : String :=
  " Уверенность (" ++
    (pct confidence ++ (") ниже порога (" ++ (pct min_confidence ++ ").")))

/-- The result record of one fact check (the fields of `FactCheckResult` that
are data rather than wall-clock time; `checked_at` is omitted since no claim
speaks about it). -/
structure FactCheckResult where
  claim : String
  verdict : String
  confidence : ℚ
  sources : List Source
  contradictions : List Contradiction
  explanation : String
deriving DecidableEq, Repr

/-- Models the pure tail of `FactChecker.check` (fact-checker.py lines
229-264): sentiment analysis over the fetched sources, contradiction search,
explanation, and the minimum-confidence downgrade.  The network fetch is
replaced by the explicit `sources` argument. -/
def check (sources : List Source) (claim : String) (min_confidence : ℚ) : FactCheckResult :=
  let texts := sources.map sourceText
  let vc := analyze_sentiment texts claim
  let verdict := vc.1
  let confidence := vc.2
  let contradictions := find_contradictions sources claim
  let explanation := generate_explanation verdict confidence
  if confidence < min_confidence ∧ (verdict = "true" ∨ verdict = "false") then
    { claim := claim, verdict := "unverified", confidence := confidence,
      sources := sources.take 5, contradictions := contradictions,
      explanation := explanation ++ thresholdNote confidence min_confidence }
  else
    { claim := claim, verdict := verdict, confidence := confidence,
      sources := sources.take 5, contradictions := contradictions,
      explanation := explanation }

/-- One search hit of the aggregator (`SearchResult` dataclass,
search-aggregator.py lines 21-30); `published_at` is an optional Unix
timestamp in seconds and `score` a rational. -/
structure SearchResult where
  title : String
  url : String
  snippet : String
  source : String
  published_at : Option Int := none
  score : ℚ := 0
deriving DecidableEq, Repr

/-- The `freshness_map` dictionary of `filter_by_freshness`
(search-aggregator.py lines 171-176), durations in seconds:
`timedelta(hours=1)`, `timedelta(days=1)`, `timedelta(weeks=1)`,
`timedelta(days=30)`. -/
def freshness_map (s : String) : Option Int :=
  if s = "hour" then some 3600
  else if s = "day" then some 86400
  else if s = "week" then some 604800
  else if s = "month" then some 2592000
  else none

/-- Models `SearchAggregator.filter_by_freshness` (search-aggregator.py lines
167-180); `datetime.now()` is the explicit `now` argument, and the
`freshness_map.get(freshness, timedelta(weeks=1))` default is `getD`. -/
def filter_by_freshness (now : Int) (results : List SearchResult)
    (freshness : String) : List SearchResult :=
  let delta := (freshness_map freshness).getD 604800
  results.filter (fun r =>
    match r.published_at with
    | some t => decide (now - t ≤ delta)
    | none => false)

/-- The horizon durations exactly as the claims name them (hour, day, week,
month mapped to their durations); any other label is junk (0). -/
def specHorizon (h : String) : Int :=
  if h = "hour" then 3600
  else if h = "day" then 86400
  else if h = "week" then 604800
  else if h = "month" then 2592000
  else 0

/-- Models `re.sub(r'[^\w]', '', title.lower())` from `remove_duplicates`
(search-aggregator.py line 194): lowercase, then keep only word characters.
Python's `\w` also covers non-ASCII word characters; the alphanumeric or
underscore test used here agrees with it on the ASCII inputs the claims
exercise, and no claim depends on the exact character class. -/
def normalizeTitle (t : String) : String :=
  String.mk ((lower t).data.filter (fun c => c.isAlphanum || c == '_'))

/-- The loop of `remove_duplicates` (search-aggregator.py lines 188-200) with
its two seen-sets carried explicitly; a `continue` happens before the adds,
so a skipped item contributes to neither seen-set, exactly as in the code. -/
def dedupeAux : List SearchResult → List String → List String → List SearchResult
  | [], _, _ => []
  | r :: rest, seenUrls, seenTitles =>
    if seenUrls.contains r.url then dedupeAux rest seenUrls seenTitles
    else if seenTitles.contains (normalizeTitle r.title) then
      dedupeAux rest seenUrls seenTitles
    else r :: dedupeAux rest (r.url :: seenUrls) (normalizeTitle r.title :: seenTitles)

/-- Models `SearchAggregator.remove_duplicates` (search-aggregator.py lines
182-202). -/
def remove_duplicates (results : List SearchResult) : List SearchResult :=
  dedupeAux results [] []

/-- The score update of one item inside `rank_results` (search-aggregator.py
lines 208-221): base score, plus `max(0, 1000000 - age) / 10000` when a
publication time exists, plus 10 when the snippet is nonempty and longer than
100 characters. -/
def applyRankScore (now : Int) (r : SearchResult) : SearchResult :=
  let s1 := r.score +
    (match r.published_at with
     | some t => max 0 (1000000 - ((now - t : Int) : ℚ)) / 10000
     | none => 0)
  let s2 := if r.snippet ≠ "" ∧ r.snippet.length > 100 then s1 + 10 else s1
  { r with score := s2 }

/-- Models `SearchAggregator.rank_results` (search-aggregator.py lines
204-224): update every score, then `sorted(results, key=lambda x: x.score,
reverse=True)`.  Python's `sorted` is stable, and a stable descending sort by
one key has a unique result, so Mathlib's stable `insertionSort` with the
relation `a.score ≥ b.score` computes exactly it. -/
def rank_results (now : Int) (results : List SearchResult) : List SearchResult :=
  List.insertionSort (fun a b => a.score ≥ b.score) (results.map (applyRankScore now))

/-- Does `x` strictly precede `y` in the ordering the specification claims for
the ranker: higher score first, then more recent `publishedAt`, then smaller
`url`? -/
def specBefore (x y : SearchResult) : Bool :=
  (decide (x.score > y.score)) ||
  (x.score == y.score &&
    (match x.published_at, y.published_at with
     | some a, some b => decide (a > b)
     | some _, none => true
     | none, _ => false)) ||
  (x.score == y.score && x.published_at == y.published_at &&
    decide (x.url < y.url))

/-- Is a list sorted according to the specification's claimed ranker order:
no adjacent pair where the later element should strictly precede the earlier
one? -/
def specSortedDesc : List SearchResult → Bool
  | [] => true
  | [_] => true
  | x :: y :: rest => !specBefore y x && specSortedDesc (y :: rest)

/-- The merge step of `SearchAggregator.search` (search-aggregator.py lines
278-282): `asyncio.gather(..., return_exceptions=True)` yields one outcome
per adapter in task order, and only the outcomes that are lists are kept —
an `Except.error` models an adapter that raised or timed out. -/
def gatherResults (outcomes : List (Except String (List SearchResult))) :
    List SearchResult :=
  outcomes.foldl
    (fun acc o => match o with | .ok l => acc ++ l | .error _ => acc) []

/-- Models the pure tail of `SearchAggregator.search` (search-aggregator.py
lines 261-289): merge the adapter outcomes, filter by freshness, dedupe,
rank, truncate to `top`. -/
def searchPipeline (outcomes : List (Except String (List SearchResult)))
    (freshness : String) (top : Nat) (now : Int) : List SearchResult :=
  (rank_results now
    (remove_duplicates
      (filter_by_freshness now (gatherResults outcomes) freshness))).take top

/-- Invariant carried by the deduplication recursion: every item of the list
has a url outside the first seen-set and a normalized title outside the
second, even after adding all earlier items of the list to both. -/
def FreshAcc : List SearchResult → List String → List String → Prop
  | [], _, _ => True
  | r :: rest, seenUrls, seenTitles =>
    seenUrls.contains r.url = false ∧
    seenTitles.contains (normalizeTitle r.title) = false ∧
    FreshAcc rest (r.url :: seenUrls) (normalizeTitle r.title :: seenTitles)

/-- Per-cue confirm contribution that claim C2 describes: 2 points for each
distinct confirming cue occurring in the lowercased text. -/
def perCueItemConfirm (textLower : String) : Nat :=
  2 * (confirm_words.filter (fun w => strContains textLower w)).length

/-- Total confirm signal under claim C2's per-cue reading: each counted item
contributes 2 points per matching confirming cue. -/
def perCueConfirmSignal (kws : List String) : List String → Nat
  | [] => 0
  | t :: ts =>
    (if countedItem kws (lower t) then perCueItemConfirm (lower t) else 0) +
      perCueConfirmSignal kws ts

/-- Concrete evidence set for the C3 witness: one confirming counted item and
four diagnostically silent counted items, yielding verdict "true" with
confidence 2/5, below the 7/10 threshold. -/
def c3Sources : List Source :=
  [⟨"x confirmed", "", "u1"⟩, ⟨"x a", "", "u2"⟩, ⟨"x b", "", "u3"⟩,
   ⟨"x c", "", "u4"⟩, ⟨"x d", "", "u5"⟩]

/-- Concrete ranker input A for the C4 counterexample: published at 1500000,
base score 0 — its freshness bonus at `now = 2000000` is exactly 50. -/
def c4ItemA : SearchResult :=
  { title := "ta", url := "a", snippet := "", source := "s",
    published_at := some 1500000, score := 0 }

/-- Concrete ranker input B for the C4 counterexample: published at 1000000,
base score 50 — its freshness bonus at `now = 2000000` is exactly 0. -/
def c4ItemB : SearchResult :=
  { title := "tb", url := "b", snippet := "", source := "s",
    published_at := some 1000000, score := 50 }

/-- Concrete source matching both a confirming cue ("confirmed") and a
denying cue ("false"), for the C9 counterexample. -/
def c9Both : Source := ⟨"confirmed false", "", "u1"⟩

/-- Concrete source matching only a denying cue ("fake"), for the C9
counterexample. -/
def c9Deny : Source := ⟨"fake news", "", "u2"⟩

/-- Concrete source whose text contains "not true", for the C10 witness. -/
def c10Source : Source := ⟨"x not true", "", "u9"⟩

instance rankRelTotal : IsTotal SearchResult (fun a b => a.score ≥ b.score) :=
  ⟨fun a b => le_total b.score a.score⟩

instance rankRelTrans : IsTrans SearchResult (fun a b => a.score ≥ b.score) :=
  ⟨fun _ _ _ h1 h2 => le_trans h2 h1⟩

theorem strData_append (a b : String) : (a ++ b).data = a.data ++ b.data := rfl

theorem listIsPrefix_exists {n h : List Char} (hp : listIsPrefix n h = true) :
    ∃ s, h = n ++ s := by
  induction n generalizing h with
  | nil => exact ⟨h, rfl⟩
  | cons a as ih =>
    cases h with
    | nil => simp [listIsPrefix] at hp
    | cons b bs =>
      simp only [listIsPrefix, Bool.and_eq_true, beq_iff_eq] at hp
      obtain ⟨rfl, hp2⟩ := hp
      obtain ⟨s, rfl⟩ := ih hp2
      exact ⟨s, rfl⟩

theorem containsSub_exists {n h : List Char} (hc : containsSub n h = true) :
    ∃ p s, h = p ++ (n ++ s) := by
  induction h with
  | nil =>
    obtain ⟨s, hs⟩ := listIsPrefix_exists (by simpa [containsSub] using hc)
    exact ⟨[], s, by simpa using hs⟩
  | cons c rest ih =>
    simp only [containsSub, Bool.or_eq_true] at hc
    rcases hc with hp | hrest
    · obtain ⟨s, hs⟩ := listIsPrefix_exists hp
      exact ⟨[], s, by simpa using hs⟩
    · obtain ⟨p, s, hps⟩ := ih hrest
      exact ⟨c :: p, s, by simp [hps]⟩

theorem listIsPrefix_self_append (n s : List Char) : listIsPrefix n (n ++ s) = true := by
  induction n with
  | nil => rfl
  | cons a as ih => simp [listIsPrefix, ih]

theorem containsSub_of_isPrefix {n h : List Char} (hp : listIsPrefix n h = true) :
    containsSub n h = true := by
  cases h with
  | nil => simpa [containsSub] using hp
  | cons c rest => simp [containsSub, hp]

theorem containsSub_parts (p n s : List Char) : containsSub n (p ++ (n ++ s)) = true := by
  induction p with
  | nil => simpa using containsSub_of_isPrefix (listIsPrefix_self_append n s)
  | cons c p ih => simp [containsSub, ih]

theorem containsSub_mono {a b h : List Char} (hc : containsSub (a ++ b) h = true) :
    containsSub b h = true := by
  obtain ⟨p, s, rfl⟩ := containsSub_exists hc
  have he : p ++ ((a ++ b) ++ s) = (p ++ a) ++ (b ++ s) := by
    simp [List.append_assoc]
  rw [he]
  exact containsSub_parts (p ++ a) b s

theorem strContains_needle_suffix (a b : String) {hay : String}
    (hc : strContains hay (a ++ b) = true) : strContains hay b = true := by
  unfold strContains at hc ⊢
  rw [strData_append] at hc
  exact containsSub_mono hc

theorem strContains_append_middle (p n s : String) :
    strContains (p ++ (n ++ s)) n = true := by
  unfold strContains
  rw [strData_append, strData_append]
  exact containsSub_parts p.data n.data s.data

theorem thresholdNote_mentions (c m : ℚ) :
    strContains (thresholdNote c m) (pct c) = true :=
  strContains_append_middle " Уверенность (" (pct c)
    (") ниже порога (" ++ (pct m ++ ")."))

theorem sentLoop_eq (kws : List String) (ts : List String) (acc : SentAcc) :
    sentLoop kws ts acc =
      ⟨acc.confirm + confirmSignal kws ts,
       acc.deny + denySignal kws ts,
       acc.mentions + countedItems kws ts⟩ := by
  induction ts generalizing acc with
  | nil => simp [sentLoop, confirmSignal, denySignal, countedItems]
  | cons t ts ih =>
    by_cases h : countedItem kws (lower t)
    · simp [sentLoop, h, ih, confirmSignal, denySignal, countedItems,
        List.filter_cons, SentAcc.mk.injEq]
      omega
    · simp [sentLoop, h, ih, confirmSignal, denySignal, countedItems,
        List.filter_cons, SentAcc.mk.injEq]

theorem mem_filter_by_freshness {now : Int} {rs : List SearchResult} {f : String}
    {r : SearchResult} :
    r ∈ filter_by_freshness now rs f ↔
      r ∈ rs ∧ ∃ t, r.published_at = some t ∧
        now - t ≤ (freshness_map f).getD 604800 := by
  unfold filter_by_freshness
  rw [List.mem_filter]
  cases hp : r.published_at with
  | none => simp [hp]
  | some t => simp [hp]

theorem dedupeAux_fresh (l : List SearchResult) :
    ∀ su st, FreshAcc (dedupeAux l su st) su st := by
  induction l with
  | nil => intro su st; simp [dedupeAux, FreshAcc]
  | cons r rest ih =>
    intro su st
    unfold dedupeAux
    by_cases hu : su.contains r.url = true
    · rw [if_pos hu]; exact ih su st
    · rw [if_neg hu]
      by_cases ht : st.contains (normalizeTitle r.title) = true
      · rw [if_pos ht]; exact ih su st
      · rw [if_neg ht]
        exact ⟨by simpa using hu, by simpa using ht, ih _ _⟩

theorem dedupeAux_id_of_fresh (l : List SearchResult) :
    ∀ su st, FreshAcc l su st → dedupeAux l su st = l := by
  induction l with
  | nil => intro su st _; rfl
  | cons r rest ih =>
    intro su st hf
    obtain ⟨hu, ht, hrest⟩ := hf
    unfold dedupeAux
    rw [if_neg (by rw [hu]; simp), if_neg (by rw [ht]; simp)]
    rw [ih _ _ hrest]

/-- C1: Verdict decision rule.  `analyze_sentiment` returns exactly what the
specification's decision rule prescribes on the accumulated confirm signal,
deny signal and counted-item count: no counted item gives ("unverified", 0);
confirmSignal > 2 * denySignal gives ("true", min(confirm/counted, 1));
denySignal > 2 * confirmSignal gives ("false", min(deny/counted, 1)); a
positive but non-dominating signal gives ("partially_true", 0.5); and two
zero signals give ("unverified", 0.3). -/
theorem verdict_decision_rule (texts : List String) (claim : String) :
    analyze_sentiment texts claim =
      verdictRule (confirmSignal (keywordsOf claim) texts)
        (denySignal (keywordsOf claim) texts)
        (countedItems (keywordsOf claim) texts) := by
  unfold analyze_sentiment verdictRule sentimentAcc
  rw [sentLoop_eq]
  simp [Nat.mul_comm]

/-- C2 counterexample: on a single counted item matching the three confirming
cues "confirmed", "yes" and "indeed", the engine's confirm accumulator is 2
(one flat increment per item), while the claimed per-cue accumulation would
be 6 — so the engine does not add 2 per cue match. -/
theorem signal_per_cue_counterexample :
    (sentimentAcc ["x confirmed yes indeed"] "x").confirm = 2 ∧
    perCueConfirmSignal (keywordsOf "x") ["x confirmed yes indeed"] = 6 ∧
    (2 : Nat) ≠ 6 := by decide

/-- C2 (amended): Signal accumulation.  For every counted evidence item the
engine adds 2 to the confirm accumulator when at least one confirming cue
matches (a flat 2, regardless of how many distinct cues match), 2 to the deny
accumulator when at least one denying cue matches, and 1 to the deny
accumulator when at least one suspicious cue matches: the loop's final
counters equal the per-item sums of these flat deltas. -/
theorem signal_accumulation (texts : List String) (claim : String) :
    (sentimentAcc texts claim).confirm = confirmSignal (keywordsOf claim) texts ∧
    (sentimentAcc texts claim).deny = denySignal (keywordsOf claim) texts ∧
    (sentimentAcc texts claim).mentions = countedItems (keywordsOf claim) texts := by
  unfold sentimentAcc
  rw [sentLoop_eq]
  simp

/-- C8: Dedup idempotence.  Running `remove_duplicates` on its own output
changes nothing. -/
theorem dedupe_idempotent (results : List SearchResult) :
    remove_duplicates (remove_duplicates results) = remove_duplicates results :=
  dedupeAux_id_of_fresh _ [] [] (dedupeAux_fresh results [] [])

/-- C5: Adapter failure isolation.  When one adapter fails (its gathered
outcome is an exception value) and the other returns normally, the pipeline —
in either task order — returns exactly the filtered, deduplicated, ranked,
truncated evidence of the successful adapter; being a total function, it
propagates no exception. -/
theorem adapter_failure_isolation (la : List SearchResult) (e : String)
    (freshness : String) (top : Nat) (now : Int) :
    searchPipeline [Except.ok la, Except.error e] freshness top now =
      (rank_results now
        (remove_duplicates (filter_by_freshness now la freshness))).take top ∧
    searchPipeline [Except.error e, Except.ok la] freshness top now =
      (rank_results now
        (remove_duplicates (filter_by_freshness now la freshness))).take top := by
  constructor <;> simp [searchPipeline, gatherResults]

/-- C6: Freshness filter policy.  For each of the four horizons, an item with
absent `published_at` is excluded, and an item with a publication time `t` is
kept if and only if `now - t` is at most the horizon's duration. -/
theorem freshness_filter_policy (now : Int) (rs : List SearchResult)
    (h : String)
    (hh : h = "hour" ∨ h = "day" ∨ h = "week" ∨ h = "month")
    (r : SearchResult) :
    r ∈ filter_by_freshness now rs h ↔
      r ∈ rs ∧ ∃ t, r.published_at = some t ∧ now - t ≤ specHorizon h := by
  have hd : (freshness_map h).getD 604800 = specHorizon h := by
    rcases hh with rfl | rfl | rfl | rfl <;> rfl
  rw [mem_filter_by_freshness, hd]

/-- Witness for C6: a concrete item published 10000 seconds before `now` is
kept by the day filter. -/
theorem freshness_filter_policy_witness :
    (⟨"t", "u", "", "s", some 90000, 0⟩ : SearchResult) ∈
      filter_by_freshness 100000 [⟨"t", "u", "", "s", some 90000, 0⟩] "day" := by
  exact (freshness_filter_policy 100000 [⟨"t", "u", "", "s", some 90000, 0⟩]
    "day" (by simp) ⟨"t", "u", "", "s", some 90000, 0⟩).mpr
    ⟨by simp, 90000, rfl, by decide⟩

/-- C7: Freshness monotonicity.  For two of the four horizons whose mapped
durations are strictly ordered, every item kept by the filter under the
shorter horizon is also kept under the longer one. -/
theorem freshness_monotone (now : Int) (rs : List SearchResult)
    (h1 h2 : String)
    (hh1 : h1 = "hour" ∨ h1 = "day" ∨ h1 = "week" ∨ h1 = "month")
    (hh2 : h2 = "hour" ∨ h2 = "day" ∨ h2 = "week" ∨ h2 = "month")
    (hlt : specHorizon h1 < specHorizon h2)
    (r : SearchResult) (hr : r ∈ filter_by_freshness now rs h1) :
    r ∈ filter_by_freshness now rs h2 := by
  have hd1 : (freshness_map h1).getD 604800 = specHorizon h1 := by
    rcases hh1 with rfl | rfl | rfl | rfl <;> rfl
  have hd2 : (freshness_map h2).getD 604800 = specHorizon h2 := by
    rcases hh2 with rfl | rfl | rfl | rfl <;> rfl
  rw [mem_filter_by_freshness, hd1] at hr
  rw [mem_filter_by_freshness, hd2]
  obtain ⟨hmem, t, hpub, hle⟩ := hr
  exact ⟨hmem, t, hpub, le_trans hle (le_of_lt hlt)⟩

/-- Witness for C7: an item kept by the hour filter is kept by the day
filter. -/
theorem freshness_monotone_witness :
    (⟨"w", "v", "", "s", some 49000, 0⟩ : SearchResult) ∈
      filter_by_freshness 50000 [⟨"w", "v", "", "s", some 49000, 0⟩] "day" := by
  exact freshness_monotone 50000 [⟨"w", "v", "", "s", some 49000, 0⟩]
    "hour" "day" (by simp) (by simp) (by decide)
    ⟨"w", "v", "", "s", some 49000, 0⟩ (by decide)

/-- C3: Threshold downgrade.  When the computed verdict is "true" or "false"
and the computed confidence is strictly below the caller's threshold, the
returned result has verdict "unverified", its confidence field still equals
the originally computed confidence, and the explanation is the original
explanation with the threshold note appended — a note that still contains the
rendering of the original confidence figure. -/
theorem threshold_downgrade (sources : List Source) (claim : String)
    (min_confidence : ℚ)
    (hv : (analyze_sentiment (sources.map sourceText) claim).1 = "true" ∨
          (analyze_sentiment (sources.map sourceText) claim).1 = "false")
    (hc : (analyze_sentiment (sources.map sourceText) claim).2 < min_confidence) :
    (check sources claim min_confidence).verdict = "unverified" ∧
    (check sources claim min_confidence).confidence =
      (analyze_sentiment (sources.map sourceText) claim).2 ∧
    (check sources claim min_confidence).explanation =
      generate_explanation (analyze_sentiment (sources.map sourceText) claim).1
          (analyze_sentiment (sources.map sourceText) claim).2 ++
        thresholdNote (analyze_sentiment (sources.map sourceText) claim).2
          min_confidence ∧
    strContains
      (thresholdNote (analyze_sentiment (sources.map sourceText) claim).2
        min_confidence)
      (pct (analyze_sentiment (sources.map sourceText) claim).2) = true := by
  have hcond :
      (analyze_sentiment (sources.map sourceText) claim).2 < min_confidence ∧
      ((analyze_sentiment (sources.map sourceText) claim).1 = "true" ∨
       (analyze_sentiment (sources.map sourceText) claim).1 = "false") := ⟨hc, hv⟩
  simp only [check]
  rw [if_pos hcond]
  exact ⟨rfl, rfl, rfl, thresholdNote_mentions _ _⟩

theorem c3_sentiment_value :
    analyze_sentiment (c3Sources.map sourceText) "x" =
      ("true", min ((2 : ℚ) / 5) 1) := by
  have hacc : sentimentAcc (c3Sources.map sourceText) "x" = ⟨2, 0, 5⟩ := by decide
  unfold analyze_sentiment
  rw [hacc]
  norm_num

/-- Witness for C3 at the concrete evidence set. -/
theorem threshold_downgrade_witness :
    (check c3Sources "x" (7 / 10)).verdict = "unverified" ∧
    (check c3Sources "x" (7 / 10)).confidence =
      (analyze_sentiment (c3Sources.map sourceText) "x").2 := by
  have h := threshold_downgrade c3Sources "x" (7 / 10)
    (Or.inl (by rw [c3_sentiment_value]))
    (by rw [c3_sentiment_value]
        show min ((2 : ℚ) / 5) 1 < 7 / 10
        rw [min_eq_left (by norm_num)]
        norm_num)
  exact ⟨h.1, h.2.1⟩

theorem c4_rankA : applyRankScore 2000000 c4ItemA =
    { title := "ta", url := "a", snippet := "", source := "s",
      published_at := some 1500000, score := 50 } := by
  simp [applyRankScore, c4ItemA, SearchResult.mk.injEq]
  norm_num [max_def]

theorem c4_rankB : applyRankScore 2000000 c4ItemB =
    { title := "tb", url := "b", snippet := "", source := "s",
      published_at := some 1000000, score := 50 } := by
  simp [applyRankScore, c4ItemB, SearchResult.mk.injEq]

theorem c4_output : rank_results 2000000 [c4ItemB, c4ItemA] =
    [applyRankScore 2000000 c4ItemB, applyRankScore 2000000 c4ItemA] := by
  unfold rank_results
  simp [List.insertionSort, List.orderedInsert, c4_rankA, c4_rankB]

theorem c4_specBefore :
    specBefore (applyRankScore 2000000 c4ItemA)
      (applyRankScore 2000000 c4ItemB) = true := by
  rw [c4_rankA, c4_rankB]
  simp [specBefore, beq_iff_eq]

/-- C4 counterexample: at `now = 2000000`, items A (published 1500000, base
score 0) and B (published 1000000, base score 50) both receive computed score
50, and the ranker given input order [B, A] outputs [B, A] — the tie is kept
in input order instead of being broken by A's more recent `publishedAt`, so
the output violates the claimed (score desc, publishedAt desc, url asc)
order, and the ordering is not determined by the items' fields alone. -/
theorem ranker_tiebreak_counterexample :
    rank_results 2000000 [c4ItemB, c4ItemA] =
      [applyRankScore 2000000 c4ItemB, applyRankScore 2000000 c4ItemA] ∧
    (applyRankScore 2000000 c4ItemB).score =
      (applyRankScore 2000000 c4ItemA).score ∧
    specBefore (applyRankScore 2000000 c4ItemA)
      (applyRankScore 2000000 c4ItemB) = true ∧
    specSortedDesc (rank_results 2000000 [c4ItemB, c4ItemA]) = false := by
  refine ⟨c4_output, ?_, c4_specBefore, ?_⟩
  · rw [c4_rankA, c4_rankB]
  · rw [c4_output]
    simp [specSortedDesc, c4_specBefore]

/-- C4 (amended): Ranker ordering.  The ranker's output is sorted in
descending order of the computed score and is a permutation of the rescored
input; ties are kept in input order (Python's `sorted` is stable), so the
output is deterministic for a fixed input list, but tie order is input order,
not the publishedAt/url order the original claim states. -/
theorem ranker_sorted_stable (now : Int) (rs : List SearchResult) :
    List.Sorted (fun a b => a.score ≥ b.score) (rank_results now rs) ∧
    (rank_results now rs).Perm (rs.map (applyRankScore now)) :=
  ⟨List.sorted_insertionSort _ _, List.perm_insertionSort _ _⟩

/-- C9 counterexample: a source matching both a confirming and a denying cue
is not classified neutral — the `if`/`elif` order places it in the confirming
group, so alongside a purely denying source it produces a contradiction
record counting it as confirming (the claim would predict no record at all,
the confirming group being empty). -/
theorem contradiction_neutral_counterexample :
    fcAnyConfirm c9Both = true ∧ fcAnyDeny c9Both = true ∧
    find_contradictions [c9Both, c9Deny] "claim" =
      [⟨"conflicting_reports", 1, 1, some c9Both, some c9Deny⟩] := by decide

/-- C9 (amended): Contradiction-detector classification.  An item matching at
least one confirming cue lands in the confirming group even when it also
matches denying cues; the denying group holds exactly the items matching a
denying cue and no confirming cue; the contradiction record is produced from
these two groups. -/
theorem contradiction_classification (sources : List Source) (claim : String)
    (s : Source) :
    (s ∈ confirmGroup sources ↔ s ∈ sources ∧ fcAnyConfirm s = true) ∧
    (s ∈ denyGroup sources ↔
      s ∈ sources ∧ fcAnyConfirm s = false ∧ fcAnyDeny s = true) ∧
    find_contradictions sources claim =
      (if confirmGroup sources ≠ [] ∧ denyGroup sources ≠ [] then
        [⟨"conflicting_reports", (confirmGroup sources).length,
          (denyGroup sources).length, (confirmGroup sources).head?,
          (denyGroup sources).head?⟩]
      else []) := by
  refine ⟨?_, ?_, rfl⟩
  · simp [confirmGroup, List.mem_filter]
  · simp [denyGroup, List.mem_filter]

/-- C10: Substring cue matching double-counts negations.  Cue detection is
substring containment and the confirming list holds "true" while the denying
list holds "not true", so a counted text containing "not true" contributes 2
to the confirm accumulator and 2 to the deny accumulator of the verdict
engine, and a source whose scanned text contains "not true" lands in the
confirming group of the contradiction detector. -/
theorem not_true_double_count (text claim : String) (s : Source)
    (sources : List Source)
    (hcount : countedItem (keywordsOf claim) (lower text) = true)
    (hsub : strContains (lower text) "not true" = true)
    (hs : s ∈ sources)
    (hsub2 : strContains (fcTone s) "not true" = true) :
    (sentimentAcc [text] claim).confirm = 2 ∧
    (sentimentAcc [text] claim).deny =
      2 + itemSuspiciousDelta (lower text) ∧
    s ∈ confirmGroup sources := by
  have hnt : ("not true" : String) = "not " ++ "true" := by decide
  have htrue : strContains (lower text) "true" = true := by
    have h2 : strContains (lower text) ("not " ++ "true") = true := by
      rw [← hnt]; exact hsub
    exact strContains_needle_suffix "not " "true" h2
  have htrue2 : strContains (fcTone s) "true" = true := by
    have h2 : strContains (fcTone s) ("not " ++ "true") = true := by
      rw [← hnt]; exact hsub2
    exact strContains_needle_suffix "not " "true" h2
  have hconf : anyCue confirm_words (lower text) = true := by
    unfold anyCue
    rw [List.any_eq_true]
    exact ⟨"true", by decide, htrue⟩
  have hdeny : anyCue deny_words (lower text) = true := by
    unfold anyCue
    rw [List.any_eq_true]
    exact ⟨"not true", by decide, hsub⟩
  have hfc : fcAnyConfirm s = true := by
    unfold fcAnyConfirm anyCue
    rw [List.any_eq_true]
    exact ⟨"true", by decide, htrue2⟩
  refine ⟨?_, ?_, ?_⟩
  · simp [sentimentAcc, sentLoop, hcount, itemConfirmDelta, hconf]
  · simp [sentimentAcc, sentLoop, hcount, itemDenyCueDelta, hdeny]
  · exact List.mem_filter.mpr ⟨hs, hfc⟩

/-- Witness for C10 at the concrete counted text "x not true" against claim
"x", and the concrete source `c10Source`. -/
theorem not_true_double_count_witness :
    (sentimentAcc ["x not true"] "x").confirm = 2 ∧
    (sentimentAcc ["x not true"] "x").deny =
      2 + itemSuspiciousDelta (lower "x not true") ∧
    c10Source ∈ confirmGroup [c10Source] := by
  exact not_true_double_count "x not true" "x" c10Source [c10Source]
    (by decide) (by decide) (by decide) (by decide)
